import Mathlib

/-!
Verification of the `postech-tech-challenge-f1` catalog crawler against its
natural-language specification.

The repository contains two scraper variants and a Flask query layer:
  * `src/scraper/scraper.py`   — class `BookScraper` (`__scrape`, `__books_list`)
    plus a `__main__` block writing `books.csv` with `csv.DictWriter`;
  * `src/scripts/scrape_books.py` — `get_book_details`, `scrape_all_books`,
    `save_to_csv` (pandas `to_csv`);
  * `src/app/routes.py` — blueprint endpoints over the CSV, notably
    `search_books`.

Pages are embedded as records of the values the CSS selectors used by the
code would return; a site is an association list from URL to fetch result.
Python string primitives (`split`, `replace`, `strip`, `lower`, `in`) and
`urllib.parse.urljoin` are modelled by structurally recursive functions on
character lists so that every concrete claim evaluates inside the kernel.
-/

/-! ### Python string primitives -/

/-- Holds when `pat` is a prefix of `l` (Boolean). -/
def listPrefixOf : List Char → List Char → Bool
  | [], _ => true
  | _ :: _, [] => false
  | a :: as, b :: bs => a = b && listPrefixOf as bs

/-- Holds when `pat` occurs contiguously in `l` (Python `pat in l`). -/
def listInfixOf (pat : List Char) : List Char → Bool
  | [] => listPrefixOf pat []
  | x :: xs => listPrefixOf pat (x :: xs) || listInfixOf pat xs

/-- Split a character list at the FIRST occurrence of a non-empty separator,
returning the part before and the part after; `none` if absent. -/
def breakAtSep (sep : List Char) : List Char → Option (List Char × List Char)
  | [] => none
  | x :: xs =>
    if listPrefixOf sep (x :: xs) then some ([], (x :: xs).drop sep.length)
    else
      match breakAtSep sep xs with
      | some (pre, post) => some (x :: pre, post)
      | none => none

/-- Python `s.split(c)` for a one-character separator. -/
def chSplit (c : Char) : List Char → List (List Char)
  | [] => [[]]
  | x :: xs =>
    let r := chSplit c xs
    if x = c then [] :: r
    else
      match r with
      | y :: ys => (x :: y) :: ys
      | [] => [[x]]

/-- Fuel-driven core of Python `s.replace(pat, rep)` (all occurrences). -/
def replaceAux (pat rep : List Char) : Nat → List Char → List Char
  | 0, _ => []
  | _, [] => []
  | fuel + 1, x :: xs =>
    if !pat.isEmpty && listPrefixOf pat (x :: xs) then
      rep ++ replaceAux pat rep fuel (xs.drop (pat.length - 1))
    else x :: replaceAux pat rep fuel xs

/-- Python `s.replace(pat, rep)` for non-empty `pat`. -/
def pyReplace (s pat rep : String) : String :=
  String.mk (replaceAux pat.data rep.data s.data.length s.data)

/-- Python `s.strip()` (over the whitespace the scraped texts contain). -/
def pyStrip (s : String) : String :=
  String.mk
    (((s.data.dropWhile Char.isWhitespace).reverse.dropWhile Char.isWhitespace).reverse)

/-- Python `s.lower()` restricted to the ASCII data the code lowercases. -/
def pyLower (s : String) : String := String.mk (s.data.map Char.toLower)

/-- Python `needle in hay` on strings: substring containment. -/
def pyIn (needle hay : String) : Bool := listInfixOf needle.data hay.data

/-! ### urljoin -/

/-- Remove-dot-segments step of RFC 3986 path resolution as performed by
`urllib.parse.urljoin` on the merged segment list (root slash stripped):
`.` vanishes, `..` pops the previous segment, surplus `..` is dropped. -/
def removeDotSegments (segs : List (List Char)) : List (List Char) :=
  segs.foldl
    (fun acc seg =>
      if seg = ['.'] then acc
      else if seg = ['.', '.'] then acc.dropLast
      else acc ++ [seg]) []

/-- Model of `urllib.parse.urljoin base ref` for the URL shapes the scrapers feed it:
an absolute `scheme://host/path` base and an empty, absolute, host-relative
or path-relative reference. -/
def urljoin (base ref : String) : String :=
  let sep : List Char := [':', '/', '/']
  if ref.data.isEmpty then base
  else if listInfixOf sep ref.data then ref
  else
    match breakAtSep sep base.data with
    | some (scheme, rest) =>
      let parts := chSplit '/' rest
      let host := parts.headD []
      let root := scheme ++ sep ++ host
      let segs :=
        if listPrefixOf ['/'] ref.data then
          removeDotSegments (chSplit '/' (ref.data.drop 1))
        else
          removeDotSegments (parts.tail.dropLast ++ chSplit '/' ref.data)
      String.mk (root ++ ['/'] ++ (List.intersperse ['/'] segs).flatten)
    | none => ref

example : pyIn "ght" "light" = true := by decide
example : pyIn "x" "light" = false := by decide
example : pyReplace "../../media/x.jpg" "../../" "" = "media/x.jpg" := by decide
example : pyStrip "  In stock (22)\n " = "In stock (22)" := by decide
example : urljoin "http://h.org/a/b/index.html" "../../m/x.jpg" = "http://h.org/m/x.jpg" := by decide
example : urljoin "http://h.org/cat/page-1.html" "page-2.html" = "http://h.org/cat/page-2.html" := by decide
example : urljoin "http://h.org/a/b.html" "http://z.org/c" = "http://z.org/c" := by decide

/-! ### Pages, sites and fetching -/

/-- Result of `requests.get(url)`: a parsed body with success status, a parsed
body with a non-success status (`requests` does not raise on those), or a
transport-level exception. -/
inductive FetchResult (π : Type) where
  | ok (page : π)
  | failStatus (page : π)
  | netError
  deriving DecidableEq, Repr

/-- What the fixed selectors of both scrapers find on one fetched page. A
single page type serves listing and detail pages, as on the real site.

* `itemHrefs` — `href` of each item anchor (`article.product_pod` → `h3 > a`
  in scraper.py, `h3 > a` in scrape_books.py: the same anchors, in order);
* `nextHref` — `href` of the next-page anchor (`li.next a` / `li.next` →
  `a`), when present;
* `h1Text` — text of `div.product_main h1` / the first `h1`;
* `priceText` — text of `p.price_color`;
* `stockText` — text of `p.instock.availability`;
* `descriptionText` — text of `div#product_description + p`;
* `starClasses` — the `class` attribute list of `p.star-rating`, when the
  element exists;
* `galleryImgSrc` — `src` of the gallery image (`div#product_gallery img` /
  `div.item.active img`), when present;
* `breadcrumbAnchors` — texts of the `ul.breadcrumb` anchors, in order. -/
structure Page where
  itemHrefs : List String := []
  nextHref : Option String := none
  h1Text : Option String := none
  priceText : Option String := none
  stockText : Option String := none
  descriptionText : Option String := none
  starClasses : Option (List String) := none
  galleryImgSrc : Option String := none
  breadcrumbAnchors : List String := []
  deriving DecidableEq, Repr

/-- A site maps URLs to fetch outcomes; a URL with no entry is a transport
error. -/
abbrev Site := List (String × FetchResult Page)

def siteFetch (site : Site) (url : String) : FetchResult Page :=
  match site.lookup url with
  | some r => r
  | none => .netError

/-- Errors a scraper run can die of: an uncaught `requests` exception, or an
uncaught attribute/index error from a selector that found nothing. -/
inductive ScrapeErr where
  | requestExc (url : String)
  | selectorNone (url field : String)
  deriving DecidableEq, Repr

/-! ### `src/scraper/scraper.py` — class `BookScraper`

`__scrape` performs `requests.get(url)` with NO status check and parses
whatever body came back; only a transport exception escapes (uncaught). -/

def scrape (site : Site) (url : String) : Except ScrapeErr Page :=
  match siteFetch site url with
  | .ok p => .ok p
  | .failStatus p => .ok p
  | .netError => .error (.requestExc url)

/-- The dict appended per book in `BookScraper.__books_list` (insertion
order `title, price, stock, description, stars, img_url, category`). -/
structure BookRow where
  title : String
  price : String
  stock : String
  description : String
  stars : String
  img_url : String
  category : String
  deriving DecidableEq, Repr

/-- Field extraction of `__books_list` (scraper.py lines 87–105) for one
detail page soup. A selector that finds nothing makes `.text` / `['class']`
raise, which `__books_list` does not catch; the first raising line wins. -/
def extractBook (book_url : String) (d : Page) : Except ScrapeErr BookRow :=
  match d.h1Text with
  | none => .error (.selectorNone book_url "title")
  | some title =>
    match d.priceText with
    | none => .error (.selectorNone book_url "price")
    | some price =>
      match d.stockText with
      | none => .error (.selectorNone book_url "stock")
      | some stockRaw =>
        let stock := pyStrip stockRaw
        let description := match d.descriptionText with
          | some t => t
          | none => ""
        match d.starClasses with
        | none => .error (.selectorNone book_url "stars")
        | some cls =>
          match cls[1]? with
          | none => .error (.selectorNone book_url "stars")
          | some stars =>
            let img_url := match d.galleryImgSrc with
              | some src => urljoin book_url src
              | none => ""
            let category :=
              if d.breadcrumbAnchors.length > 2 then
                (d.breadcrumbAnchors.getLast?).getD ""
              else ""
            .ok { title, price, stock, description, stars, img_url, category }

/-- The inner `for book in soup.select('article.product_pod')` loop of
`__books_list`: fetch each detail page and extract; any exception
propagates and aborts the whole run. -/
def processItems (site : Site) (pageUrl : String) :
    List String → Except ScrapeErr (List BookRow)
  | [] => .ok []
  | href :: rest =>
    let book_url := urljoin pageUrl href
    match scrape site book_url with
    | .error e => .error e
    | .ok book_soup =>
      match extractBook book_url book_soup with
      | .error e => .error e
      | .ok row =>
        match processItems site pageUrl rest with
        | .error e => .error e
        | .ok rows => .ok (row :: rows)

/-- One observation of the `while next_page_url` loop of `__books_list`,
driven by fuel: the books collected so far, the listing URLs fetched so far
(in order, repeats kept), and the URL still pending when fuel ran out
(`none` exactly when the loop reached its normal exit `next_page_url =
None`). -/
def booksListAux (site : Site) :
    Nat → Option String → List BookRow → List String →
    Except ScrapeErr (List BookRow × List String × Option String)
  | 0, url, acc, visited => .ok (acc, visited, url)
  | _ + 1, none, acc, visited => .ok (acc, visited, none)
  | fuel + 1, some u, acc, visited =>
    match scrape site u with
    | .error e => .error e
    | .ok soup =>
      match processItems site u soup.itemHrefs with
      | .error e => .error e
      | .ok rows =>
        let next := match soup.nextHref with
          | some href => some (urljoin u href)
          | none => none
        booksListAux site fuel next (acc ++ rows) (visited ++ [u])

/-- Run of `BookScraper.__books_list` from `base_url` with enough fuel. -/
def booksList (site : Site) (base_url : String) (fuel : Nat) :
    Except ScrapeErr (List BookRow × List String × Option String) :=
  booksListAux site fuel (some base_url) [] []

/-! ### `src/scripts/scrape_books.py` -/

/-- Fetch with the `response.raise_for_status()` path used by scrape_books.py: a
non-success status or a transport error raises `RequestException`. -/
def fetchRaise (site : Site) (url : String) : Except ScrapeErr Page :=
  match siteFetch site url with
  | .ok p => .ok p
  | .failStatus _ => .error (.requestExc url)
  | .netError => .error (.requestExc url)

/-- The dict returned by `get_book_details` (insertion order `title, price,
rating, availability, category, image_url, book_url`). -/
structure BookData where
  title : String
  price : String
  rating : String
  availability : String
  category : String
  image_url : String
  book_url : String
  deriving DecidableEq, Repr

/-- The hardcoded base of `get_book_details` (scrape_books.py line 32). -/
def hardcodedBase : String := "https://books.toscrape.com/"

/-- The hardcoded listing base of `scrape_all_books` (line 55). -/
def catalogueBase : String := "https://books.toscrape.com/catalogue/"

/-- Body of the `try` in `get_book_details` (scrape_books.py lines 11–43):
each raising operation is explicit. `soup.find(...)` returning `None`
followed by `.text`/`['class']`/`[i]` raises, as does `raise_for_status`. -/
def getBookDetailsE (site : Site) (book_url : String) :
    Except ScrapeErr BookData :=
  match fetchRaise site book_url with
  | .error e => .error e
  | .ok soup =>
    match soup.h1Text with
    | none => .error (.selectorNone book_url "title")
    | some title =>
      match soup.priceText with
      | none => .error (.selectorNone book_url "price")
      | some price =>
        match soup.starClasses with
        | none => .error (.selectorNone book_url "rating")
        | some rating_classes =>
          match rating_classes[1]? with
          | none => .error (.selectorNone book_url "rating")
          | some tok =>
            let rating := tok ++ " de 5 estrelas"
            match soup.stockText with
            | none => .error (.selectorNone book_url "availability")
            | some stockRaw =>
              let availability := pyStrip stockRaw
              match soup.breadcrumbAnchors[2]? with
              | none => .error (.selectorNone book_url "category")
              | some category =>
                match soup.galleryImgSrc with
                | none => .error (.selectorNone book_url "image")
                | some image_relative_url =>
                  let image_url :=
                    hardcodedBase ++ pyReplace image_relative_url "../../" ""
                  .ok { title, price, rating, availability, category,
                        image_url, book_url }

/-- Model of `get_book_details`: every exception is caught and turned into `None`. -/
def get_book_details (site : Site) (book_url : String) : Option BookData :=
  (getBookDetailsE site book_url).toOption

/-- The per-page item loop of `scrape_all_books` (lines 68–73): build each
link as `base_url + href`, call `get_book_details`, keep non-`None`
results in order. -/
def collectPageItems (site : Site) (hrefs : List String) : List BookData :=
  (hrefs.map (fun h => catalogueBase ++ h)).filterMap (get_book_details site)

/-- The `while current_page_url` loop of `scrape_all_books` (lines 59–85),
driven by fuel. Returns the accumulated records, the listing URLs on which
a fetch was attempted (in order), and the URL still pending when fuel ran
out (`none` when the loop exited, normally or by the `except` → `break`). -/
def scrapeAllAux (site : Site) :
    Nat → Option String → List BookData → List String →
    List BookData × List String × Option String
  | 0, url, acc, visited => (acc, visited, url)
  | _ + 1, none, acc, visited => (acc, visited, none)
  | fuel + 1, some u, acc, visited =>
    match fetchRaise site u with
    | .error _ => (acc, visited ++ [u], none)
    | .ok soup =>
      let acc := acc ++ collectPageItems site soup.itemHrefs
      let next := match soup.nextHref with
        | some h => some (catalogueBase ++ h)
        | none => none
      scrapeAllAux site fuel next acc (visited ++ [u])

/-- Model of `scrape_all_books()`: the walk starts at the hardcoded first page. -/
def scrape_all_books (site : Site) (fuel : Nat) :
    List BookData × List String × Option String :=
  scrapeAllAux site fuel (some (catalogueBase ++ "page-1.html")) [] []

/-! ### Dataset writers -/

/-- Minimal-quoting CSV cell (Python `csv` / pandas default): quote and
double embedded quotes only when the cell contains a comma, quote or
newline. -/
def csvCell (s : String) : String :=
  if pyIn "," s || pyIn "\x22" s || pyIn "\n" s then
    "\x22" ++ pyReplace s "\x22" "\x22\x22" ++ "\x22"
  else s

def csvLine (cells : List String) : String :=
  String.intercalate "," (cells.map csvCell)

/-- Header written by scraper.py's `__main__`: `csv.DictWriter` with
`fieldnames=results[0].keys()`, i.e. the insertion order of the book dict. -/
def scraperHeader : String :=
  "title,price,stock,description,stars,img_url,category"

/-- Header pandas derives for `save_to_csv`: the columns of
`pd.DataFrame(data)`, i.e. the key order of the `get_book_details` dict. -/
def pandasHeader : String :=
  "title,price,rating,availability,category,image_url,book_url"

def bookRowLine (r : BookRow) : String :=
  csvLine [r.title, r.price, r.stock, r.description, r.stars, r.img_url, r.category]

def bookDataLine (r : BookData) : String :=
  csvLine [r.title, r.price, r.rating, r.availability, r.category, r.image_url, r.book_url]

/-- Lines of `books.csv` as written by scraper.py's `__main__` block
(lines 130–136): header + rows when `results` is non-empty, otherwise the
literal line `No data found`. -/
def scraperMainLines (results : List BookRow) : List String :=
  if results.isEmpty then ["No data found"]
  else scraperHeader :: results.map bookRowLine

/-- Model of `save_to_csv(data)` (scrape_books.py lines 89–104): with no data it
prints and returns WITHOUT writing any file (`none`); otherwise pandas
writes header + rows (`index=False`). -/
def save_to_csv (data : List BookData) : Option (List String) :=
  if data.isEmpty then none
  else some (pandasHeader :: data.map bookDataLine)

/-- Filesystem operations a writer performs, in order. -/
inductive FsOp where
  | makedirs (dir : String)
  | openWrite (path : String)
  | writeLine (path line : String)
  | close (path : String)
  | rename (src dst : String)
  deriving DecidableEq, Repr

def FsOp.isRename : FsOp → Bool
  | .rename _ _ => true
  | _ => false

/-- Operation trace of scraper.py's `__main__`: `open('books.csv', 'w')`
directly on the destination, write the lines, close. No temporary file, no
rename. -/
def scraperMainOps (results : List BookRow) : List FsOp :=
  [.openWrite "books.csv"] ++
    (scraperMainLines results).map (.writeLine "books.csv") ++
    [.close "books.csv"]

/-- Operation trace of `save_to_csv` with the default filename: early
return with no operations when data is empty, else `os.makedirs` then
`df.to_csv` writing the destination in place. No temporary file, no
rename. -/
def saveToCsvOps (data : List BookData) : List FsOp :=
  match save_to_csv data with
  | none => []
  | some lines =>
    [.makedirs "../data", .openWrite "../data/books_data.csv"] ++
      lines.map (.writeLine "../data/books_data.csv") ++
      [.close "../data/books_data.csv"]

/-! ### `src/app/routes.py` — `search_books` -/

/-- One row of the in-memory table `load_books` builds from the CSV. -/
structure ApiBook where
  id : Nat
  title : String
  price : String
  rating : String
  availability : String
  category : String
  image_url : String
  book_url : String
  deriving DecidableEq, Repr

/-- Model of `search_books` (routes.py lines 66–77): missing query parameters
default to `''`; an empty filter string matches every row (`if title` is
false for `''`). Returns the filtered list and status 200. -/
def search_books (books : List ApiBook) (titleArg categoryArg : Option String) :
    List ApiBook × Nat :=
  let title := pyLower (titleArg.getD "")
  let category := pyLower (categoryArg.getD "")
  let filtered := books.filter (fun book =>
    (if title = "" then true else pyIn title (pyLower book.title)) &&
    (if category = "" then true else pyIn category (pyLower book.category)))
  (filtered, 200)

/-- Model of the `__main__` block of scrape_books.py (lines 107–112): run the walk, save when
the result is non-empty. The script installs no top-level error handling
and never calls `sys.exit`, so the interpreter exits with code 0. Returns
(records, written file lines if any, exit code). -/
def scrapeBooksMain (site : Site) (fuel : Nat) :
    List BookData × Option (List String) × Nat :=
  let res := scrape_all_books site fuel
  let data := res.1
  (data, if data.isEmpty then none else save_to_csv data, 0)

/-! ### Spec-side definitions (refinement comparison only)

These follow the SPEC's words (§4.4), to be compared with the definitions
above that embed the source. -/

/-- Spec side, §4.4 Price: "strip any leading non-digit currency marker" —
the digit-and-decimal portion of the price text. -/
def specStripCurrency (s : String) : String :=
  String.mk (s.data.dropWhile (fun c => !c.isDigit))

/-- Spec side, §4.4 Rating: the fixed word-form lookup table
"One".."Five" ↦ 1..5; any other token ↦ `none` (null). -/
def specRatingTable (tok : String) : Option Nat :=
  if tok = "One" then some 1
  else if tok = "Two" then some 2
  else if tok = "Three" then some 3
  else if tok = "Four" then some 4
  else if tok = "Five" then some 5
  else none

/-! ### Concrete fixtures -/

/-- A fully populated detail page (the shape of a real book page; the
breadcrumb carries four anchors: Home, Books, the category, the title). -/
def detailGood : Page where
  h1Text := some "A Light in the Attic"
  priceText := some "£51.77"
  stockText := some "  In stock (22 available)\n"
  descriptionText := some "A poem book."
  starClasses := some ["star-rating", "Three"]
  galleryImgSrc := some "../../media/pic.jpg"
  breadcrumbAnchors := ["Home", "Books", "Poetry", "A Light in the Attic"]

/-- Page `detailGood` with the `p.star-rating` element absent. -/
def detailNoStars : Page :=
  { detailGood with starClasses := none }

/-- Page `detailGood` with the gallery image element absent. -/
def detailNoImg : Page :=
  { detailGood with galleryImgSrc := none }

/-- An error body (e.g. a 404 page): none of the product selectors match. -/
def errorPage : Page where

example : extractBook "http://h/b" detailGood =
    .ok { title := "A Light in the Attic", price := "£51.77",
          stock := "In stock (22 available)", description := "A poem book.",
          stars := "Three", img_url := "http://h/media/pic.jpg",
          category := "A Light in the Attic" } := by rfl

/-! ### Claim C10 -/

/-- C10: in `search_books` (routes.py 66–77), when both the `title` and
`category` query parameters are absent (each defaulting to `''`), every
loaded book matches the filter, so the endpoint returns the full book list
with status 200. -/
theorem C10_search_no_params (books : List ApiBook) :
    search_books books none none = (books, 200) := by
  unfold search_books
  have h : pyLower ((none : Option String).getD "") = "" := rfl
  simp only [h]
  simp only [Prod.mk.injEq, and_true]
  rw [List.filter_eq_self]
  intro a _
  simp

/-! ### Helper lemmas on successful extraction -/

/-- On success, `extractBook` (scraper.py) copies the selector values
verbatim: raw price text, raw second star class, `urljoin`-resolved image
URL, last-breadcrumb category with the `> 2` guard. -/
theorem extractBook_ok (url : String) (d : Page) (row : BookRow)
    (h : extractBook url d = .ok row) :
    d.h1Text = some row.title ∧
    d.priceText = some row.price ∧
    (∃ s, d.stockText = some s ∧ row.stock = pyStrip s) ∧
    (∃ cls, d.starClasses = some cls ∧ cls[1]? = some row.stars) ∧
    row.img_url = (match d.galleryImgSrc with
      | some src => urljoin url src
      | none => "") ∧
    row.category = (if d.breadcrumbAnchors.length > 2 then
      (d.breadcrumbAnchors.getLast?).getD ""
    else "") := by
  cases hh : d.h1Text with
  | none => simp [extractBook, hh] at h
  | some title =>
    cases hp : d.priceText with
    | none => simp [extractBook, hh, hp] at h
    | some price =>
      cases hs : d.stockText with
      | none => simp [extractBook, hh, hp, hs] at h
      | some stockRaw =>
        cases hc : d.starClasses with
        | none => simp [extractBook, hh, hp, hs, hc] at h
        | some cls =>
          cases hg : cls[1]? with
          | none => simp [extractBook, hh, hp, hs, hc, hg] at h
          | some stars =>
            simp only [extractBook, hh, hp, hs, hc, hg, Except.ok.injEq] at h
            subst h
            exact ⟨rfl, rfl, ⟨stockRaw, rfl, rfl⟩, ⟨cls, rfl, hg⟩, rfl, rfl⟩

/-- On success, `getBookDetailsE` (scrape_books.py) produced its record
from a successfully fetched page: raw price text, rating string
`<token> de 5 estrelas`, third breadcrumb anchor as category, image URL
built by `'../../'`-deletion under the hardcoded base. -/
theorem getBookDetailsE_ok (site : Site) (url : String) (bd : BookData)
    (h : getBookDetailsE site url = .ok bd) :
    ∃ d, siteFetch site url = .ok d ∧
      d.h1Text = some bd.title ∧
      d.priceText = some bd.price ∧
      (∃ cls tok, d.starClasses = some cls ∧ cls[1]? = some tok ∧
        bd.rating = tok ++ " de 5 estrelas") ∧
      (∃ s, d.stockText = some s ∧ bd.availability = pyStrip s) ∧
      d.breadcrumbAnchors[2]? = some bd.category ∧
      (∃ src, d.galleryImgSrc = some src ∧
        bd.image_url = hardcodedBase ++ pyReplace src "../../" "") ∧
      bd.book_url = url := by
  cases hf : siteFetch site url with
  | failStatus p => simp [getBookDetailsE, fetchRaise, hf] at h
  | netError => simp [getBookDetailsE, fetchRaise, hf] at h
  | ok d =>
    refine ⟨d, rfl, ?_⟩
    cases hh : d.h1Text with
    | none => simp [getBookDetailsE, fetchRaise, hf, hh] at h
    | some title =>
      cases hp : d.priceText with
      | none => simp [getBookDetailsE, fetchRaise, hf, hh, hp] at h
      | some price =>
        cases hc : d.starClasses with
        | none => simp [getBookDetailsE, fetchRaise, hf, hh, hp, hc] at h
        | some cls =>
          cases hg : cls[1]? with
          | none => simp [getBookDetailsE, fetchRaise, hf, hh, hp, hc, hg] at h
          | some tok =>
            cases hs : d.stockText with
            | none => simp [getBookDetailsE, fetchRaise, hf, hh, hp, hc, hg, hs] at h
            | some stockRaw =>
              cases hb : d.breadcrumbAnchors[2]? with
              | none =>
                simp [getBookDetailsE, fetchRaise, hf, hh, hp, hc, hg, hs, hb] at h
              | some category =>
                cases hi : d.galleryImgSrc with
                | none =>
                  simp [getBookDetailsE, fetchRaise, hf, hh, hp, hc, hg, hs, hb, hi] at h
                | some src =>
                  simp only [getBookDetailsE, fetchRaise, hf, hh, hp, hc, hg, hs,
                    hb, hi, Except.ok.injEq] at h
                  subst h
                  exact ⟨rfl, rfl, ⟨cls, tok, rfl, hg, rfl⟩, ⟨stockRaw, rfl, rfl⟩,
                    rfl, ⟨src, rfl, rfl⟩, rfl⟩

/-! ### Claim C1 — price -/

def c1url : String := "https://books.toscrape.com/catalogue/book_1/index.html"

def c1site : Site := [(c1url, .ok detailGood)]

/-- The row `extractBook` produces from `detailGood` at `c1url`. -/
def c1row : BookRow where
  title := "A Light in the Attic"
  price := "£51.77"
  stock := "In stock (22 available)"
  description := "A poem book."
  stars := "Three"
  img_url := "https://books.toscrape.com/media/pic.jpg"
  category := "A Light in the Attic"

/-- The record `get_book_details` produces from `detailGood` at `c1url`. -/
def c1bd : BookData where
  title := "A Light in the Attic"
  price := "£51.77"
  rating := "Three de 5 estrelas"
  availability := "In stock (22 available)"
  category := "Poetry"
  image_url := "https://books.toscrape.com/media/pic.jpg"
  book_url := c1url

/-- C1 is false on the code: for the detail page whose price element text
is the currency-prefixed string `£51.77`, both extractors store the raw
string `£51.77` — the currency symbol is NOT stripped and no numeric value
equal to the digit portion `51.77` is stored. -/
theorem C1_counterexample :
    (extractBook c1url detailGood).toOption.map BookRow.price = some "£51.77" ∧
    (get_book_details c1site c1url).map BookData.price = some "£51.77" ∧
    specStripCurrency "£51.77" = "51.77" ∧
    ("£51.77" : String) ≠ "51.77" := by decide

/-- C1 (amended): for every detail page, both extractors store the price
element's raw text verbatim as a string — the currency symbol is kept and
the text is never parsed into a number (a currency-prefixed "51.77" string
yields the string "£51.77", not the number 51.77). -/
theorem C1_price_raw_text (url u2 : String) (d : Page) (site : Site)
    (row : BookRow) (bd : BookData)
    (h1 : extractBook url d = .ok row)
    (h2 : getBookDetailsE site u2 = .ok bd) :
    d.priceText = some row.price ∧
    ∃ d2, siteFetch site u2 = .ok d2 ∧ d2.priceText = some bd.price := by
  obtain ⟨-, hp, -, -, -, -⟩ := extractBook_ok url d row h1
  obtain ⟨d2, hf, -, hp2, -, -, -, -, -⟩ := getBookDetailsE_ok site u2 bd h2
  exact ⟨hp, d2, hf, hp2⟩

/-- Witness for `C1_price_raw_text` at the concrete fixture. -/
theorem C1_price_raw_text_witness :
    detailGood.priceText = some c1row.price ∧
    ∃ d2, siteFetch c1site c1url = .ok d2 ∧ d2.priceText = some c1bd.price :=
  C1_price_raw_text c1url c1url detailGood c1site c1row c1bd (by rfl) (by rfl)

/-! ### Claim C2 — rating -/

def c2url : String := "https://books.toscrape.com/catalogue/book_2/index.html"

def c2site : Site := [(c2url, .ok detailNoStars)]

/-- C2 is false on the code: on a detail page whose star-rating indicator
is missing (all other fields present), scrape_books.py emits NO record
(`None`) instead of a record with a null rating, and scraper.py aborts
extraction with an uncaught error; moreover, for the token "Three" the
emitted rating is the string "Three de 5 estrelas", not the integer 3 the
lookup table fixes. -/
theorem C2_counterexample :
    get_book_details c2site c2url = none ∧
    extractBook c2url detailNoStars = .error (.selectorNone c2url "stars") ∧
    (get_book_details c1site c1url).map BookData.rating =
      some "Three de 5 estrelas" ∧
    specRatingTable "Three" = some 3 :=
  ⟨by decide, by rfl, by decide, by decide⟩

/-- C2 (amended): on every successfully extracted detail page the rating is
kept as a raw string — scraper.py stores the second class token itself,
scrape_books.py the string "\x7btoken\x7d de 5 estrelas"; no word-to-integer
mapping exists, and a page whose star-rating element is missing yields no
record at all: scraper.py aborts extraction and scrape_books.py returns
`None`. -/
theorem C2_rating_raw_token (url u2 : String) (d : Page) (site : Site)
    (row : BookRow) (bd : BookData)
    (h1 : extractBook url d = .ok row)
    (h2 : getBookDetailsE site u2 = .ok bd) :
    (∃ cls, d.starClasses = some cls ∧ cls[1]? = some row.stars) ∧
    (∃ d2 cls tok, siteFetch site u2 = .ok d2 ∧ d2.starClasses = some cls ∧
      cls[1]? = some tok ∧ bd.rating = tok ++ " de 5 estrelas") ∧
    (∀ u3 d3 row', d3.starClasses = none → extractBook u3 d3 ≠ .ok row') ∧
    (∀ site3 u3 d3, siteFetch site3 u3 = .ok d3 → d3.starClasses = none →
      get_book_details site3 u3 = none) := by
  obtain ⟨-, -, -, hstar, -, -⟩ := extractBook_ok url d row h1
  obtain ⟨d2, hf, -, -, ⟨cls2, tok2, hc2, hg2, hr2⟩, -, -, -, -⟩ :=
    getBookDetailsE_ok site u2 bd h2
  refine ⟨hstar, ⟨d2, cls2, tok2, hf, hc2, hg2, hr2⟩, ?_, ?_⟩
  · intro u3 d3 row' hnone hcontra
    obtain ⟨-, -, -, ⟨cls3, hc3, -⟩, -, -⟩ := extractBook_ok u3 d3 row' hcontra
    rw [hnone] at hc3
    exact Option.noConfusion hc3
  · intro site3 u3 d3 hf3 hnone
    cases hres : getBookDetailsE site3 u3 with
    | error e => simp [get_book_details, hres, Except.toOption]
    | ok bd' =>
      exfalso
      obtain ⟨d4, hf4, -, -, ⟨cls4, tok4, hc4, -⟩, -⟩ :=
        getBookDetailsE_ok site3 u3 bd' hres
      rw [hf3] at hf4
      cases hf4
      rw [hnone] at hc4
      exact Option.noConfusion hc4

/-- Witness for `C2_rating_raw_token` at the concrete fixture. -/
theorem C2_rating_raw_token_witness :
    ∃ cls, detailGood.starClasses = some cls ∧ cls[1]? = some c1row.stars :=
  (C2_rating_raw_token c1url c1url detailGood c1site c1row c1bd
    (by rfl) (by rfl)).1

/-! ### Claim C3 — pagination cycle guard -/

/-- A listing page whose next link points back at itself. -/
def cycPage : Page where
  nextHref := some "p1"

def cycUrl : String := "http://s.org/p1"

def cycSite : Site := [(cycUrl, .ok cycPage)]

/-- Same shape on the scrape_books.py side: `page-1.html` whose next link
is `page-1.html` again. -/
def cyc2Page : Page where
  nextHref := some "page-1.html"

def cyc2Url : String := catalogueBase ++ "page-1.html"

def cyc2Site : Site := [(cyc2Url, .ok cyc2Page)]

/-- C3 is false on the code: both walks revisit a listing URL they have
already visited. With fuel 3 on a self-looping page, each walk fetches the
same URL three times and still has it pending — it does not terminate on
the revisit. -/
theorem C3_counterexample :
    booksList cycSite cycUrl 3 =
      .ok ([], [cycUrl, cycUrl, cycUrl], some cycUrl) ∧
    scrapeAllAux cyc2Site 3 (some cyc2Url) [] [] =
      ([], [cyc2Url, cyc2Url, cyc2Url], some cyc2Url) :=
  ⟨by rfl, by rfl⟩

/-- C3 (amended): neither walk tracks visited listing URLs; a next link
resolving to an already-visited URL is simply fetched again, and on cyclic
pagination markup the loop never reaches its termination condition — after
any number of iterations the same URL is fetched once more and is still
pending. -/
theorem C3_no_cycle_guard :
    (∀ n acc visited, booksListAux cycSite n (some cycUrl) acc visited =
      .ok (acc, visited ++ List.replicate n cycUrl, some cycUrl)) ∧
    (∀ n acc visited, scrapeAllAux cyc2Site n (some cyc2Url) acc visited =
      (acc, visited ++ List.replicate n cyc2Url, some cyc2Url)) := by
  constructor
  · intro n
    induction n with
    | zero => intro acc visited; simp [booksListAux]
    | succ k ih =>
      intro acc visited
      have step : booksListAux cycSite (k + 1) (some cycUrl) acc visited =
          booksListAux cycSite k (some cycUrl) (acc ++ []) (visited ++ [cycUrl]) := rfl
      rw [step, ih]
      simp [List.replicate_succ]
  · intro n
    induction n with
    | zero => intro acc visited; simp [scrapeAllAux]
    | succ k ih =>
      intro acc visited
      have step : scrapeAllAux cyc2Site (k + 1) (some cyc2Url) acc visited =
          scrapeAllAux cyc2Site k (some cyc2Url) (acc ++ []) (visited ++ [cyc2Url]) := rfl
      rw [step, ih]
      simp [List.replicate_succ]

/-! ### Claim C4 — per-item failure tolerance -/

/-- A listing page with two item anchors. -/
def c4aList : Page where
  itemHrefs := ["b1/index.html", "b2/index.html"]

def c4aUrl : String := "http://s.org/cat/page-1.html"

def c4ab1 : String := "http://s.org/cat/b1/index.html"

def c4ab2 : String := "http://s.org/cat/b2/index.html"

/-- scraper.py walk: the first item's detail fetch returns a failure
status (an error body without product markup); the second item is fine. -/
def c4aSite : Site :=
  [(c4aUrl, .ok c4aList), (c4ab1, .failStatus errorPage), (c4ab2, .ok detailGood)]

/-- C4 is false on the code: in scraper.py a failure status on ONE item's
detail page aborts the entire run with an uncaught error — the error body
parses, the title selector finds nothing, `.text` raises — so no record is
emitted for the other, successfully fetched item either. -/
theorem C4_counterexample :
    booksList c4aSite c4aUrl 2 = .error (.selectorNone c4ab1 "title") := by rfl

/-- C4 (amended): in scrape_books.py a failed item fetch yields `None`,
which the page loop filters out, so the item contributes no record while
every other item on the listing page still produces its record and the
walk completes normally; in scraper.py (see the counterexample) the same
failure aborts the whole run. -/
theorem C4_item_failure_tolerated (site : Site) (u : String) (p : Page)
    (h1 h2 : String) (r : BookData)
    (hlist : siteFetch site u = .ok p)
    (hitems : p.itemHrefs = [h1, h2])
    (hnext : p.nextHref = none)
    (hfail : get_book_details site (catalogueBase ++ h1) = none)
    (hok : get_book_details site (catalogueBase ++ h2) = some r) :
    scrapeAllAux site 2 (some u) [] [] = ([r], [u], none) := by
  have hf : fetchRaise site u = .ok p := by
    simp [fetchRaise, hlist]
  have hcollect : collectPageItems site p.itemHrefs = [r] := by
    rw [hitems]
    simp [collectPageItems, hfail, hok]
  simp [scrapeAllAux, hf, hcollect, hnext]

/-- scrape_books.py fixture for the witness: a listing page whose first
item's detail fetch returns a failure status. -/
def c4bList : Page where
  itemHrefs := ["b1/index.html", "b2/index.html"]
  nextHref := none

def c4bUrl : String := catalogueBase ++ "page-1.html"

def c4bb1 : String := catalogueBase ++ "b1/index.html"

def c4bb2 : String := catalogueBase ++ "b2/index.html"

def c4bSite : Site :=
  [(c4bUrl, .ok c4bList), (c4bb1, .failStatus errorPage), (c4bb2, .ok detailGood)]

/-- The record scrape_books.py extracts for the surviving second item. -/
def c4bd : BookData :=
  { c1bd with book_url := c4bb2 }

/-- Witness for `C4_item_failure_tolerated` at the concrete fixture. -/
theorem C4_item_failure_tolerated_witness :
    scrapeAllAux c4bSite 2 (some c4bUrl) [] [] = ([c4bd], [c4bUrl], none) :=
  C4_item_failure_tolerated c4bSite c4bUrl c4bList "b1/index.html" "b2/index.html"
    c4bd (by rfl) (by rfl) (by rfl) (by rfl) (by rfl)

/-! ### Claim C5 — fixed header and empty dataset -/

set_option maxRecDepth 40000 in
/-- C5 is false on the code: an empty record set makes `save_to_csv`
return without writing ANY file and makes scraper.py's `__main__` write a
file containing only `No data found`; with records present the headers
are the record dicts' key orders — `book_url` (not `source_url`) in
scrape_books.py, and `stock,description,stars,img_url` columns in
scraper.py — never the fixed header the claim states. -/
theorem C5_counterexample :
    save_to_csv [] = none ∧
    scraperMainLines [] = ["No data found"] ∧
    (scraperMainLines [c1row])[0]? = some scraperHeader ∧
    save_to_csv [c1bd] = some [pandasHeader, bookDataLine c1bd] ∧
    scraperHeader ≠ "title,price,rating,availability,category,image_url,source_url" ∧
    pandasHeader ≠ "title,price,rating,availability,category,image_url,source_url" := by
  decide

/-- C5 (amended): each writer's header comes from its record type's key
order — scraper.py writes `title,price,stock,description,stars,img_url,category`
followed by the rows, and for an empty record set a file containing only
`No data found`; scrape_books.py writes
`title,price,rating,availability,category,image_url,book_url` followed by
the rows, and for an empty record set writes no file at all. -/
theorem C5_header_from_record_keys (rows : List BookRow) (data : List BookData)
    (hr : rows ≠ []) (hd : data ≠ []) :
    scraperMainLines rows = scraperHeader :: rows.map bookRowLine ∧
    scraperMainLines [] = ["No data found"] ∧
    save_to_csv data = some (pandasHeader :: data.map bookDataLine) ∧
    save_to_csv [] = none := by
  refine ⟨?_, rfl, ?_, rfl⟩
  · simp [scraperMainLines, hr]
  · simp [save_to_csv, hd]

/-- Witness for `C5_header_from_record_keys` at the concrete fixture. -/
theorem C5_header_from_record_keys_witness :
    scraperMainLines [c1row] = scraperHeader :: [c1row].map bookRowLine ∧
    scraperMainLines [] = ["No data found"] ∧
    save_to_csv [c1bd] = some (pandasHeader :: [c1bd].map bookDataLine) ∧
    save_to_csv [] = none :=
  C5_header_from_record_keys [c1row] [c1bd] (by decide) (by decide)

/-! ### Claim C6 — fetch-failure policy -/

/-- A site where even the first listing page is unreachable. -/
def c6failSite : Site := []

def c6p1 : String := catalogueBase ++ "page-1.html"

def c6p2 : String := catalogueBase ++ "page-2.html"

def c6p3 : String := catalogueBase ++ "page-3.html"

def c6b1 : String := catalogueBase ++ "c6b1/index.html"

def c6b3 : String := catalogueBase ++ "c6b3/index.html"

def c6list1 : Page where
  itemHrefs := ["c6b1/index.html"]
  nextHref := some "page-2.html"

def c6list3 : Page where
  itemHrefs := ["c6b3/index.html"]

/-- Page 1 is fine, page 2's fetch raises, page 3 (with one more book)
would have followed. -/
def c6midSite : Site :=
  [(c6p1, .ok c6list1), (c6b1, .ok detailGood), (c6p2, .netError),
   (c6p3, .ok c6list3), (c6b3, .ok detailGood)]

/-- The record collected from page 1 of `c6midSite`. -/
def c6bd1 : BookData :=
  { c1bd with book_url := c6b1 }

/-- C6 is false on the code: a fetch failure on the FIRST listing page is
not fatal — scrape_books.py's `except` breaks the loop, the run continues
and the interpreter exits 0 with no file written; and a fetch failure on a
SUBSEQUENT listing page does not skip just that page — the `break` ends
the whole walk, so page 3 is never visited and its book is lost. -/
theorem C6_counterexample :
    scrapeBooksMain c6failSite 5 = ([], none, 0) ∧
    scrape_all_books c6midSite 9 = ([c6bd1], [c6p1, c6p2], none) :=
  ⟨by rfl, by rfl⟩

/-- C6 (amended): in scrape_books.py a `RequestException` on ANY listing
page — the first included — ends the pagination walk via `break`; the run
keeps only the records gathered so far and finishes normally (exit 0), so
pages after a failed one are never visited; only an item detail-page
failure skips just that item. In scraper.py a transport error on ANY page,
listing or detail, is an uncaught fatal exception. -/
theorem C6_failure_policy (site : Site) (u : String) (fuel : Nat)
    (acc : List BookData) (visited : List String) (e : ScrapeErr)
    (hfail : fetchRaise site u = .error e) :
    scrapeAllAux site (fuel + 1) (some u) acc visited = (acc, visited ++ [u], none) ∧
    (∀ site2 u2 fuel2 acc2 visited2 e2, scrape site2 u2 = .error e2 →
      booksListAux site2 (fuel2 + 1) (some u2) acc2 visited2 = .error e2) := by
  constructor
  · simp [scrapeAllAux, hfail]
  · intro site2 u2 fuel2 acc2 visited2 e2 h2
    simp [booksListAux, h2]

/-- Witness for `C6_failure_policy` at the concrete fixture: page 2 of
`c6midSite` fails, ending the walk with page 1's records. -/
theorem C6_failure_policy_witness :
    scrapeAllAux c6midSite 5 (some c6p2) [c6bd1] [c6p1] =
      ([c6bd1], [c6p1] ++ [c6p2], none) :=
  (C6_failure_policy c6midSite c6p2 4 [c6bd1] [c6p1] (.requestExc c6p2)
    (by rfl)).1

/-! ### Claim C7 — breadcrumb category -/

/-- A detail page whose breadcrumb has only 2 anchors. -/
def detailShortCrumb : Page :=
  { detailGood with breadcrumbAnchors := ["Home", "Books"] }

def c7url : String := catalogueBase ++ "book_7/index.html"

def c7site : Site := [(c7url, .ok detailShortCrumb)]

/-- C7 is false on the code: on the 4-anchor breadcrumb
`Home, Books, Poetry, A Light in the Attic`, scrape_books.py extracts the
THIRD anchor's text `Poetry`, not the last entry's text as claimed; and on
a breadcrumb with fewer than 3 anchors it emits no record at all instead
of an empty-string category. -/
theorem C7_counterexample :
    (get_book_details c1site c1url).map BookData.category = some "Poetry" ∧
    detailGood.breadcrumbAnchors.getLast? = some "A Light in the Attic" ∧
    ("Poetry" : String) ≠ "A Light in the Attic" ∧
    get_book_details c7site c7url = none := by decide

/-- C7 (amended): scraper.py implements the claimed rule — fewer than 3
breadcrumb anchors give category `""`, otherwise the LAST anchor's text;
scrape_books.py instead always takes the THIRD anchor's text (index 2) and
drops the record entirely when the breadcrumb has fewer than 3 anchors. -/
theorem C7_category_variants (url u2 : String) (d : Page) (site : Site)
    (row : BookRow) (bd : BookData)
    (h1 : extractBook url d = .ok row)
    (h2 : getBookDetailsE site u2 = .ok bd) :
    row.category = (if d.breadcrumbAnchors.length > 2 then
      d.breadcrumbAnchors.getLast?.getD ""
    else "") ∧
    (∃ d2, siteFetch site u2 = .ok d2 ∧
      d2.breadcrumbAnchors[2]? = some bd.category) ∧
    (∀ site3 u3 d3, siteFetch site3 u3 = .ok d3 →
      d3.breadcrumbAnchors.length < 3 → get_book_details site3 u3 = none) := by
  obtain ⟨-, -, -, -, -, hcat⟩ := extractBook_ok url d row h1
  obtain ⟨d2, hf, -, -, -, -, hb, -, -⟩ := getBookDetailsE_ok site u2 bd h2
  refine ⟨hcat, ⟨d2, hf, hb⟩, ?_⟩
  intro site3 u3 d3 hf3 hlen
  cases hres : getBookDetailsE site3 u3 with
  | error e => simp [get_book_details, hres, Except.toOption]
  | ok bd' =>
    exfalso
    obtain ⟨d4, hf4, -, -, -, -, hb4, -, -⟩ := getBookDetailsE_ok site3 u3 bd' hres
    rw [hf3] at hf4
    cases hf4
    rw [List.getElem?_eq_none (by omega)] at hb4
    exact Option.noConfusion hb4

/-- Witness for `C7_category_variants` at the concrete fixture. -/
theorem C7_category_variants_witness :
    c1row.category = (if detailGood.breadcrumbAnchors.length > 2 then
      detailGood.breadcrumbAnchors.getLast?.getD ""
    else "") ∧
    (∃ d2, siteFetch c1site c1url = .ok d2 ∧
      d2.breadcrumbAnchors[2]? = some c1bd.category) ∧
    (∀ site3 u3 d3, siteFetch site3 u3 = .ok d3 →
      d3.breadcrumbAnchors.length < 3 → get_book_details site3 u3 = none) :=
  C7_category_variants c1url c1url detailGood c1site c1row c1bd (by rfl) (by rfl)

/-! ### Claim C8 — image URL resolution -/

/-- A detail page served from a host other than the hardcoded base. -/
def c8url : String := "http://example.org/catalogue/b_1/index.html"

def c8site : Site := [(c8url, .ok detailGood)]

def c8bUrl : String := catalogueBase ++ "book_8/index.html"

def c8bSite : Site := [(c8bUrl, .ok detailNoImg)]

/-- C8 is false on the code: for a detail page at `example.org` whose
gallery image src is `../../media/pic.jpg`, scrape_books.py emits the
prefix-replacement URL under the hardcoded `books.toscrape.com` base
instead of resolving against the page's own URL; and when the image
element is missing it emits no record instead of an empty `image_url`. -/
theorem C8_counterexample :
    (get_book_details c8site c8url).map BookData.image_url =
      some "https://books.toscrape.com/media/pic.jpg" ∧
    urljoin c8url "../../media/pic.jpg" = "http://example.org/media/pic.jpg" ∧
    ("https://books.toscrape.com/media/pic.jpg" : String) ≠
      "http://example.org/media/pic.jpg" ∧
    get_book_details c8bSite c8bUrl = none := by decide

/-- C8 (amended): scraper.py resolves the gallery image src against the
detail page's own URL and stores `""` (record still emitted) when the
element is missing; scrape_books.py instead deletes `../../` from the src
and prefixes the hardcoded base `https://books.toscrape.com/`, and a
missing image element makes it drop the record (see the counterexample). -/
theorem C8_image_url_variants (url u2 : String) (d : Page) (site : Site)
    (row : BookRow) (bd : BookData)
    (h1 : extractBook url d = .ok row)
    (h2 : getBookDetailsE site u2 = .ok bd) :
    row.img_url = (match d.galleryImgSrc with
      | some src => urljoin url src
      | none => "") ∧
    (∃ d2 src, siteFetch site u2 = .ok d2 ∧ d2.galleryImgSrc = some src ∧
      bd.image_url = hardcodedBase ++ pyReplace src "../../" "") := by
  obtain ⟨-, -, -, -, himg, -⟩ := extractBook_ok url d row h1
  obtain ⟨d2, hf, -, -, -, -, -, ⟨src, hsrc, hurl⟩, -⟩ :=
    getBookDetailsE_ok site u2 bd h2
  exact ⟨himg, ⟨d2, src, hf, hsrc, hurl⟩⟩

/-- The row scraper.py extracts from a page with no gallery image: the
record is still produced, with an empty `img_url`. -/
def c8row : BookRow :=
  { c1row with img_url := "" }

/-- Witness for `C8_image_url_variants` at the concrete fixtures: a
missing image on the scraper.py side, the hardcoded-base replacement on
the scrape_books.py side. -/
theorem C8_image_url_variants_witness :
    c8row.img_url = (match detailNoImg.galleryImgSrc with
      | some src => urljoin c8bUrl src
      | none => "") ∧
    (∃ d2 src, siteFetch c8site c8url = .ok d2 ∧ d2.galleryImgSrc = some src ∧
      c1bd.image_url = hardcodedBase ++ pyReplace src "../../" "") := by
  have h := C8_image_url_variants c8bUrl c8url detailNoImg c8site c8row
    { c1bd with book_url := c8url } (by rfl) (by rfl)
  exact ⟨h.1, h.2⟩

/-! ### Claim C9 — atomic replacement of the dataset file -/

/-- C9 is false on the code: both writers' operation traces open the
destination path itself for writing and contain no rename at all — there
is no temporary location, so an interrupted write leaves a half-written
dataset at the destination. -/
theorem C9_counterexample :
    (scraperMainOps [c1row]).filter (fun op => op.isRename) = [] ∧
    FsOp.openWrite "books.csv" ∈ scraperMainOps [c1row] ∧
    (saveToCsvOps [c1bd]).filter (fun op => op.isRename) = [] ∧
    FsOp.openWrite "../data/books_data.csv" ∈ saveToCsvOps [c1bd] := by
  decide

/-- C9 (amended): for every record list, both writers open the destination
path directly and write the dataset in place; their operation traces never
contain a rename, so the write is not atomic from the caller's
perspective. -/
theorem C9_no_atomic_rename (results : List BookRow) (data : List BookData) :
    (scraperMainOps results).filter (fun op => op.isRename) = [] ∧
    FsOp.openWrite "books.csv" ∈ scraperMainOps results ∧
    (saveToCsvOps data).filter (fun op => op.isRename) = [] ∧
    (data ≠ [] → FsOp.openWrite "../data/books_data.csv" ∈ saveToCsvOps data) := by
  refine ⟨?_, ?_, ?_, ?_⟩
  · simp [scraperMainOps, List.filter_append, List.filter_map,
      Function.comp, FsOp.isRename, List.filter_cons]
  · simp [scraperMainOps]
  · cases hsv : save_to_csv data with
    | none => simp [saveToCsvOps, hsv]
    | some lines =>
      simp [saveToCsvOps, hsv, List.filter_append, List.filter_map,
        Function.comp, FsOp.isRename, List.filter_cons]
  · intro hd
    have hsv : save_to_csv data = some (pandasHeader :: data.map bookDataLine) := by
      simp [save_to_csv, hd]
    simp [saveToCsvOps, hsv]

/-- Witness for `C9_no_atomic_rename` at the concrete fixture. -/
theorem C9_no_atomic_rename_witness :
    (scraperMainOps [c1row]).filter (fun op => op.isRename) = [] ∧
    FsOp.openWrite "../data/books_data.csv" ∈ saveToCsvOps [c1bd] :=
  ⟨(C9_no_atomic_rename [c1row] [c1bd]).1,
   (C9_no_atomic_rename [c1row] [c1bd]).2.2.2 (by decide)⟩
